import Mathlib

/-!
# Verification of the Crystal Collector game engine

Shallow embedding of `src/assets/js/app.js` (an IIFE owning the game state
and the `Game` object) and proofs about its behaviour.

Modelling conventions:

* JavaScript numbers that can become `NaN` are modelled as `Option Int`
  (`none` is `NaN`): `parseInt` of a missing attribute yields `NaN`, and
  `NaN` is absorbing for `+` and compares false under `===` and `>`.
* The DOM is modelled by the fields the logic reads back or that the claims
  observe: the gem buttons currently in `#gem-display` (their
  `data-gem-value` attributes), the win/lose classes on `.timer__message`,
  the overlay visibility, and the text of `.timer__time-left`.  Pure text
  mirrors of already-modelled numbers (score, tally, target displays) are
  not duplicated in the state.
* `setInterval` / `clearInterval` are modelled by a list of live interval
  timers, each carrying its id, the `then` timestamp its callback closed
  over, and its period; `clearInterval id` removes the timer with that id
  (a no-op on a dead id, as in the browser).  `Game.restartID` starts at 0
  and real ids start at 1, so the initial `clearInterval(this.restartID)`
  is a no-op exactly as in the browser.
* Randomness is passed in explicitly: `Math.random()` becomes a rational
  parameter `r` with `0 ≤ r < 1`, and the draw sequence consumed by the
  gem-value rejection sampling becomes a list of draws.
* Timer callbacks fire at explicit times: a `tick` event carries the time
  `Date.now()` returned when the callback ran.
-/

namespace CrystalCollector

/-- A JavaScript number that may be `NaN` (`none` = `NaN`). -/
abbrev JSNum := Option Int

/-- JavaScript `+` on possibly-`NaN` numbers: `NaN` is absorbing. -/
def jsAdd : JSNum → JSNum → JSNum
  | some a, some b => some (a + b)
  | _, _ => none

/-- JavaScript `===` between a possibly-`NaN` number and an integer:
`NaN === x` is false. -/
def jsEqInt : JSNum → Int → Bool
  | some a, b => a = b
  | none, _ => false

/-- JavaScript `>` between a possibly-`NaN` number and an integer:
`NaN > x` is false. -/
def jsGtInt : JSNum → Int → Bool
  | some a, b => b < a
  | none, _ => false

/-- `Math.round (n / d)` for integer `n` and positive integer `d`:
`Math.round x = ⌊x + 1/2⌋`, so this is `⌊(2n + d) / (2d)⌋`. -/
def jsRoundDiv (n d : Int) : Int := Int.fdiv (2 * n + d) (2 * d)

/-- JavaScript `%` on integers is the truncated remainder (sign of the
dividend), i.e. `Int.tmod`. -/
def jsMod (a b : Int) : Int := Int.tmod a b

/-- `getRandomNumber(start, end)` from app.js lines 41-43:
`Math.floor(Math.random() * ((end - start) + 1) + start)`, with the random
source `Math.random()` passed in as the rational `r`.  (`endVal` models the
parameter named `end`, a reserved word in Lean.) -/
def getRandomNumber (start endVal : Int) (r : ℚ) : Int :=
  ⌊r * ((endVal - start : Int) + 1) + (start : Int)⌋

/-- A live `setInterval` timer: its id, the `then` timestamp the callback
closed over, and the period in milliseconds. -/
structure Timer where
  id : Nat
  thenMs : Int
  periodMs : Int
  deriving Repr, DecidableEq

/-- The mutable state of the IIFE in app.js: the module-level counters
(`numberOfWins`, `numberOfLosses`, `currentScore`), the `Game` object
fields (`targetNumber`, `restartID`, `uniqueGemValues`), and the parts of
the DOM the logic reads back or the specification observes. -/
structure GameState where
  /-- Module-level `numberOfWins`. -/
  numberOfWins : Nat
  /-- Module-level `numberOfLosses`. -/
  numberOfLosses : Nat
  /-- Module-level `currentScore`; `none` is `NaN`. -/
  currentScore : JSNum
  /-- `Game.targetNumber`. -/
  targetNumber : Int
  /-- `Game.uniqueGemValues`. -/
  uniqueGemValues : List Int
  /-- The `data-gem-value` attributes of the gem buttons currently inside
  `#gem-display`, in creation order. -/
  gemButtons : List Int
  /-- Whether `.timer__message` carries the class `game-won`. -/
  msgWon : Bool
  /-- Whether `.timer__message` carries the class `game-lost`. -/
  msgLost : Bool
  /-- Whether `.timer__overlay` is displayed (`flex` vs `none`). -/
  overlayVisible : Bool
  /-- The text of `.timer__time-left` (`none` = emptied). -/
  timeLeftText : Option Int
  /-- `Game.restartID` (0 before any timer was ever scheduled). -/
  restartID : Nat
  /-- The next fresh interval id the host would hand out (ids start at 1). -/
  nextID : Nat
  /-- The currently live interval timers. -/
  timers : List Timer
  deriving Repr, DecidableEq

/-- The round outcome as the specification names it, read off the classes
of `.timer__message` (the only place app.js records it). -/
inductive Outcome where
  | inProgress
  | won
  | lost
  deriving Repr, DecidableEq

/-- The outcome of the current round as recorded in the DOM. -/
def outcomeOf (s : GameState) : Outcome :=
  if s.msgWon then .won else if s.msgLost then .lost else .inProgress

/-- `Game.restartSeconds` (app.js line 52). -/
def restartSeconds : Int := 5

/-- `clearInterval(i)`: remove the live timer with id `i`, if any. -/
def clearIntervalG (s : GameState) (i : Nat) : GameState :=
  { s with timers := s.timers.filter (fun tm => tm.id ≠ i) }

/-- The loop body of `Game.generateGemNumbers` (app.js lines 128-136):
`while (uniqueGemValues.length < 4)` draw a number and push it unless it is
already present.  `draws` is the (finite prefix of the) stream of values
`getRandomNumber(1, 12)` returns; the loop stops consuming once four
values are collected.  If the draws are exhausted first the accumulated
list is returned (the JS loop would keep drawing; theorems hypothesise
enough draws). -/
def gemLoop (acc : List Int) : List Int → List Int
  | [] => acc
  | d :: ds =>
    if acc.length < 4 then
      if acc.contains d then gemLoop acc ds else gemLoop (acc ++ [d]) ds
    else acc

/-- `Game.generateGemNumbers` (app.js lines 128-136) applied to the state. -/
def generateGemNumbers (s : GameState) (draws : List Int) : GameState :=
  { s with uniqueGemValues := gemLoop s.uniqueGemValues draws }

/-- `Game.generateTargetNumber` (app.js lines 144-146):
`getRandomNumber(19, 120)`. -/
def generateTargetNumber (r : ℚ) : Int :=
  getRandomNumber 19 120 r

/-- `Game.startPlay` (app.js lines 88-103): for each of the four gems,
append a button whose `data-gem-value` is `uniqueGemValues.shift()`; then
refresh the statistic displays (text mirrors of already-modelled numbers).
Four shifts remove the first four values. -/
def startPlay (s : GameState) : GameState :=
  { s with gemButtons := s.gemButtons ++ s.uniqueGemValues.take 4,
           uniqueGemValues := s.uniqueGemValues.drop 4 }

/-- `Game.start` (app.js lines 74-82) with `bind = false` (the `bind` branch
only registers the delegated click handler on page load). -/
def start (s : GameState) (draws : List Int) (r : ℚ) : GameState :=
  let s := generateGemNumbers s draws
  let s := { s with targetNumber := generateTargetNumber r }
  startPlay s

/-- `Game.displayTimeLeft` (app.js lines 246-256) with the default
`withMinutes = false`: show `seconds % 60` (the minute formatting is dead
code in this range). -/
def displayTimeLeft (s : GameState) (seconds : Int) : GameState :=
  { s with timeLeftText := some (jsMod seconds 60) }

/-- `Game.resetGame` (app.js lines 151-163): empty the gem display, reset
`uniqueGemValues`, `targetNumber` and `currentScore`, clear the timer
message and its classes, hide the overlay, empty the time-left display,
then `start()`.  Note: it does NOT call `clearInterval`. -/
def resetGame (s : GameState) (draws : List Int) (r : ℚ) : GameState :=
  let s := { s with gemButtons := [],
                    uniqueGemValues := [],
                    targetNumber := 0,
                    currentScore := some 0,
                    msgWon := false,
                    msgLost := false,
                    overlayVisible := false,
                    timeLeftText := none }
  start s draws r

/-- `Game.restartGame` (app.js lines 210-238): show the overlay, clear the
existing timer (`clearInterval(this.restartID)`), compute
`then = now + seconds * 1000`, display the initial seconds, and schedule a
fresh 1000 ms interval, remembering its id in `restartID`. -/
def restartGame (s : GameState) (seconds : Int) (now : Int) : GameState :=
  let s := { s with overlayVisible := true }
  let s := clearIntervalG s s.restartID
  let thenMs := now + seconds * 1000
  let s := displayTimeLeft s seconds
  { s with timers := s.timers ++ [⟨s.nextID, thenMs, 1000⟩],
           restartID := s.nextID,
           nextID := s.nextID + 1 }

/-- `Game.playerClick` (app.js lines 172-203).  `attr` is the
`data-gem-value` attribute of the clicked element: `some v` when present,
`none` when absent, in which case `parseInt` yields `NaN`.  The score is
updated first; then, in order: win check (`===`), lose check (`>`),
otherwise continue.  There is no guard on the round outcome. -/
def playerClick (s : GameState) (attr : Option Int) (now : Int) : GameState :=
  let gemValue : JSNum := attr
  let score := jsAdd s.currentScore gemValue
  let s := { s with currentScore := score }
  if jsEqInt score s.targetNumber then
    let s := { s with numberOfWins := s.numberOfWins + 1, msgWon := true }
    restartGame s restartSeconds now
  else if jsGtInt score s.targetNumber then
    let s := { s with numberOfLosses := s.numberOfLosses + 1, msgLost := true }
    restartGame s restartSeconds now
  else s

/-- One firing of the interval callback scheduled by `restartGame`
(app.js lines 223-237), for the interval with id `tmId`, at time `t`
(= `Date.now()`), with `draws` and `r` the randomness a round restart
would consume.  A cleared interval never fires, hence the guard.  The
callback computes `secondsLeft = Math.round((then - Date.now()) / 1000)`
from the `then` it closed over; if negative it clears
`this.restartID` and calls `resetGame()`, and in every case it then calls
`displayTimeLeft(secondsLeft)`. -/
def tickOnce (s : GameState) (tmId : Nat) (t : Int) (draws : List Int)
    (r : ℚ) : GameState :=
  match s.timers.find? (fun tm => tm.id = tmId) with
  | none => s
  | some tm =>
    let secondsLeft := jsRoundDiv (tm.thenMs - t) 1000
    if secondsLeft < 0 then
      let s := clearIntervalG s s.restartID
      let s := resetGame s draws r
      displayTimeLeft s secondsLeft
    else
      displayTimeLeft s secondsLeft

/-- An externally observable event driving the engine: a click event
delivered to `playerClick` (with the clicked element's `data-gem-value`
and the current time), a manual round start (`resetGame`), or one firing
of an interval callback. -/
inductive Ev where
  | click (attr : Option Int) (t : Int)
  | manualStart (draws : List Int) (r : ℚ)
  | tick (tmId : Nat) (t : Int) (draws : List Int) (r : ℚ)

/-- The step function: dispatch one event to the code it invokes. -/
def step (s : GameState) : Ev → GameState
  | .click attr t => playerClick s attr t
  | .manualStart draws r => resetGame s draws r
  | .tick tmId t draws r => tickOnce s tmId t draws r

/-- Run a sequence of events. -/
def run (s : GameState) : List Ev → GameState
  | [] => s
  | e :: es => run (step s e) es

/-- Whether an event makes the round transition to Won (the win branch of
`playerClick` fires): the post-addition score `===` the target. -/
def emitsWin (s : GameState) : Ev → Bool
  | .click attr _ => jsEqInt (jsAdd s.currentScore attr) s.targetNumber
  | _ => false

/-- Whether an event makes the round transition to Lost (the lose branch of
`playerClick` fires). -/
def emitsLoss (s : GameState) : Ev → Bool
  | .click attr _ =>
    !jsEqInt (jsAdd s.currentScore attr) s.targetNumber &&
      jsGtInt (jsAdd s.currentScore attr) s.targetNumber
  | _ => false

/-- Number of Won outcomes emitted along a run. -/
def winsEmitted (s : GameState) : List Ev → Nat
  | [] => 0
  | e :: es => (if emitsWin s e then 1 else 0) + winsEmitted (step s e) es

/-- Number of Lost outcomes emitted along a run. -/
def lossesEmitted (s : GameState) : List Ev → Nat
  | [] => 0
  | e :: es => (if emitsLoss s e then 1 else 0) + lossesEmitted (step s e) es

/-! ## Concrete states used for witnesses and counterexamples -/

/-- The module state right after page load, before `Game.start(true)` runs:
all counters zero, no buttons, no timers. -/
def initState : GameState :=
  { numberOfWins := 0, numberOfLosses := 0, currentScore := some 0,
    targetNumber := 0, uniqueGemValues := [], gemButtons := [],
    msgWon := false, msgLost := false, overlayVisible := false,
    timeLeftText := none, restartID := 0, nextID := 1, timers := [] }

/-- A round in progress: target 19, score 5, gems 12/10/3/5 on display. -/
def cInProgressState : GameState :=
  { numberOfWins := 0, numberOfLosses := 0, currentScore := some 5,
    targetNumber := 19, uniqueGemValues := [], gemButtons := [12, 10, 3, 5],
    msgWon := false, msgLost := false, overlayVisible := false,
    timeLeftText := none, restartID := 0, nextID := 1, timers := [] }

/-- A round just lost (the player reached 22 against target 19 by clicking
12 then 10): the lose branch ran, so `numberOfLosses` is 1, the lost
message class is set, the overlay is up and the countdown interval (id 1,
`then` = 5000) is live.  The gem buttons are still in the DOM: only the
next `resetGame` empties them. -/
def cLostState : GameState :=
  { numberOfWins := 0, numberOfLosses := 1, currentScore := some 22,
    targetNumber := 19, uniqueGemValues := [], gemButtons := [12, 10, 3, 5],
    msgWon := false, msgLost := true, overlayVisible := true,
    timeLeftText := some 5, restartID := 1, nextID := 2,
    timers := [⟨1, 5000, 1000⟩] }

/-- The state the manual `resetGame` from the lost state produces, written
out: the new round has target 19 (the draw `r = 0`), fresh gems 2/4/6/8,
score 0 — and the old countdown interval still live. -/
def cSecondRoundState : GameState :=
  { numberOfWins := 0, numberOfLosses := 1, currentScore := some 0,
    targetNumber := 19, uniqueGemValues := [], gemButtons := [2, 4, 6, 8],
    msgWon := false, msgLost := false, overlayVisible := false,
    timeLeftText := none, restartID := 1, nextID := 2,
    timers := [⟨1, 5000, 1000⟩] }

/-- The sequence of states during one countdown started by `restartGame`
at time `t0`, with the scheduled interval firing exactly once per second:
state 0 is right after `restartGame(restartSeconds)`; state `k + 1` is
after the k-th firing of the interval, at time `t0 + 1000 * (k + 1)`. -/
def countdownStates (s : GameState) (t0 : Int) (draws : List Int) (r : ℚ) :
    Nat → GameState
  | 0 => restartGame s restartSeconds t0
  | k + 1 => tickOnce (countdownStates s t0 draws r k) s.nextID
      (t0 + 1000 * (k + 1)) draws r

/-! ## Frame lemmas: which fields each operation touches -/

@[simp] lemma clearIntervalG_numberOfWins (s : GameState) (i : Nat) :
    (clearIntervalG s i).numberOfWins = s.numberOfWins := rfl

@[simp] lemma clearIntervalG_numberOfLosses (s : GameState) (i : Nat) :
    (clearIntervalG s i).numberOfLosses = s.numberOfLosses := rfl

@[simp] lemma clearIntervalG_currentScore (s : GameState) (i : Nat) :
    (clearIntervalG s i).currentScore = s.currentScore := rfl

@[simp] lemma clearIntervalG_targetNumber (s : GameState) (i : Nat) :
    (clearIntervalG s i).targetNumber = s.targetNumber := rfl

@[simp] lemma clearIntervalG_msgWon (s : GameState) (i : Nat) :
    (clearIntervalG s i).msgWon = s.msgWon := rfl

@[simp] lemma clearIntervalG_msgLost (s : GameState) (i : Nat) :
    (clearIntervalG s i).msgLost = s.msgLost := rfl

@[simp] lemma clearIntervalG_restartID (s : GameState) (i : Nat) :
    (clearIntervalG s i).restartID = s.restartID := rfl

@[simp] lemma clearIntervalG_nextID (s : GameState) (i : Nat) :
    (clearIntervalG s i).nextID = s.nextID := rfl

@[simp] lemma clearIntervalG_timers (s : GameState) (i : Nat) :
    (clearIntervalG s i).timers = s.timers.filter (fun tm => tm.id ≠ i) := rfl

@[simp] lemma displayTimeLeft_timeLeftText (s : GameState) (k : Int) :
    (displayTimeLeft s k).timeLeftText = some (jsMod k 60) := rfl

@[simp] lemma displayTimeLeft_numberOfWins (s : GameState) (k : Int) :
    (displayTimeLeft s k).numberOfWins = s.numberOfWins := rfl

@[simp] lemma displayTimeLeft_numberOfLosses (s : GameState) (k : Int) :
    (displayTimeLeft s k).numberOfLosses = s.numberOfLosses := rfl

@[simp] lemma displayTimeLeft_currentScore (s : GameState) (k : Int) :
    (displayTimeLeft s k).currentScore = s.currentScore := rfl

@[simp] lemma displayTimeLeft_targetNumber (s : GameState) (k : Int) :
    (displayTimeLeft s k).targetNumber = s.targetNumber := rfl

@[simp] lemma displayTimeLeft_msgWon (s : GameState) (k : Int) :
    (displayTimeLeft s k).msgWon = s.msgWon := rfl

@[simp] lemma displayTimeLeft_msgLost (s : GameState) (k : Int) :
    (displayTimeLeft s k).msgLost = s.msgLost := rfl

@[simp] lemma displayTimeLeft_restartID (s : GameState) (k : Int) :
    (displayTimeLeft s k).restartID = s.restartID := rfl

@[simp] lemma displayTimeLeft_nextID (s : GameState) (k : Int) :
    (displayTimeLeft s k).nextID = s.nextID := rfl

@[simp] lemma displayTimeLeft_timers (s : GameState) (k : Int) :
    (displayTimeLeft s k).timers = s.timers := rfl

@[simp] lemma displayTimeLeft_gemButtons (s : GameState) (k : Int) :
    (displayTimeLeft s k).gemButtons = s.gemButtons := rfl

@[simp] lemma displayTimeLeft_uniqueGemValues (s : GameState) (k : Int) :
    (displayTimeLeft s k).uniqueGemValues = s.uniqueGemValues := rfl

@[simp] lemma displayTimeLeft_overlayVisible (s : GameState) (k : Int) :
    (displayTimeLeft s k).overlayVisible = s.overlayVisible := rfl

@[simp] lemma start_numberOfWins (s : GameState) (d : List Int) (r : ℚ) :
    (start s d r).numberOfWins = s.numberOfWins := rfl

@[simp] lemma start_numberOfLosses (s : GameState) (d : List Int) (r : ℚ) :
    (start s d r).numberOfLosses = s.numberOfLosses := rfl

@[simp] lemma start_currentScore (s : GameState) (d : List Int) (r : ℚ) :
    (start s d r).currentScore = s.currentScore := rfl

@[simp] lemma start_msgWon (s : GameState) (d : List Int) (r : ℚ) :
    (start s d r).msgWon = s.msgWon := rfl

@[simp] lemma start_msgLost (s : GameState) (d : List Int) (r : ℚ) :
    (start s d r).msgLost = s.msgLost := rfl

@[simp] lemma start_overlayVisible (s : GameState) (d : List Int) (r : ℚ) :
    (start s d r).overlayVisible = s.overlayVisible := rfl

@[simp] lemma start_timeLeftText (s : GameState) (d : List Int) (r : ℚ) :
    (start s d r).timeLeftText = s.timeLeftText := rfl

@[simp] lemma start_restartID (s : GameState) (d : List Int) (r : ℚ) :
    (start s d r).restartID = s.restartID := rfl

@[simp] lemma start_nextID (s : GameState) (d : List Int) (r : ℚ) :
    (start s d r).nextID = s.nextID := rfl

@[simp] lemma start_timers (s : GameState) (d : List Int) (r : ℚ) :
    (start s d r).timers = s.timers := rfl

@[simp] lemma start_targetNumber (s : GameState) (d : List Int) (r : ℚ) :
    (start s d r).targetNumber = generateTargetNumber r := rfl

@[simp] lemma resetGame_numberOfWins (s : GameState) (d : List Int) (r : ℚ) :
    (resetGame s d r).numberOfWins = s.numberOfWins := rfl

@[simp] lemma resetGame_numberOfLosses (s : GameState) (d : List Int) (r : ℚ) :
    (resetGame s d r).numberOfLosses = s.numberOfLosses := rfl

@[simp] lemma resetGame_currentScore (s : GameState) (d : List Int) (r : ℚ) :
    (resetGame s d r).currentScore = some 0 := rfl

@[simp] lemma resetGame_msgWon (s : GameState) (d : List Int) (r : ℚ) :
    (resetGame s d r).msgWon = false := rfl

@[simp] lemma resetGame_msgLost (s : GameState) (d : List Int) (r : ℚ) :
    (resetGame s d r).msgLost = false := rfl

@[simp] lemma resetGame_overlayVisible (s : GameState) (d : List Int) (r : ℚ) :
    (resetGame s d r).overlayVisible = false := rfl

@[simp] lemma resetGame_timeLeftText (s : GameState) (d : List Int) (r : ℚ) :
    (resetGame s d r).timeLeftText = none := rfl

@[simp] lemma resetGame_restartID (s : GameState) (d : List Int) (r : ℚ) :
    (resetGame s d r).restartID = s.restartID := rfl

@[simp] lemma resetGame_nextID (s : GameState) (d : List Int) (r : ℚ) :
    (resetGame s d r).nextID = s.nextID := rfl

@[simp] lemma resetGame_timers (s : GameState) (d : List Int) (r : ℚ) :
    (resetGame s d r).timers = s.timers := rfl

@[simp] lemma restartGame_numberOfWins (s : GameState) (k t : Int) :
    (restartGame s k t).numberOfWins = s.numberOfWins := rfl

@[simp] lemma restartGame_numberOfLosses (s : GameState) (k t : Int) :
    (restartGame s k t).numberOfLosses = s.numberOfLosses := rfl

@[simp] lemma restartGame_currentScore (s : GameState) (k t : Int) :
    (restartGame s k t).currentScore = s.currentScore := rfl

@[simp] lemma restartGame_targetNumber (s : GameState) (k t : Int) :
    (restartGame s k t).targetNumber = s.targetNumber := rfl

@[simp] lemma restartGame_msgWon (s : GameState) (k t : Int) :
    (restartGame s k t).msgWon = s.msgWon := rfl

@[simp] lemma restartGame_msgLost (s : GameState) (k t : Int) :
    (restartGame s k t).msgLost = s.msgLost := rfl

@[simp] lemma restartGame_gemButtons (s : GameState) (k t : Int) :
    (restartGame s k t).gemButtons = s.gemButtons := rfl

@[simp] lemma restartGame_uniqueGemValues (s : GameState) (k t : Int) :
    (restartGame s k t).uniqueGemValues = s.uniqueGemValues := rfl

@[simp] lemma restartGame_overlayVisible (s : GameState) (k t : Int) :
    (restartGame s k t).overlayVisible = true := rfl

@[simp] lemma restartGame_timeLeftText (s : GameState) (k t : Int) :
    (restartGame s k t).timeLeftText = some (jsMod k 60) := rfl

@[simp] lemma restartGame_restartID (s : GameState) (k t : Int) :
    (restartGame s k t).restartID = s.nextID := rfl

@[simp] lemma restartGame_nextID (s : GameState) (k t : Int) :
    (restartGame s k t).nextID = s.nextID + 1 := rfl

@[simp] lemma restartGame_timers (s : GameState) (k t : Int) :
    (restartGame s k t).timers =
      s.timers.filter (fun tm => tm.id ≠ s.restartID) ++
        [⟨s.nextID, t + k * 1000, 1000⟩] := rfl

/-! ## Shared helper lemmas -/

/-- `getRandomNumber(start, end)` lands in `[start, end]` whenever the
random source is in `[0, 1)` and the range is nonempty. -/
lemma getRandomNumber_range (start endVal : Int) (r : ℚ)
    (hse : start ≤ endVal) (h0 : 0 ≤ r) (h1 : r < 1) :
    start ≤ getRandomNumber start endVal r ∧
      getRandomNumber start endVal r ≤ endVal := by
  unfold getRandomNumber
  have hn : (0 : ℚ) < ((endVal - start : Int) : ℚ) + 1 := by
    have h : (0 : Int) < (endVal - start) + 1 := by omega
    exact_mod_cast h
  constructor
  · apply Int.le_floor.mpr
    have hnn : (0 : ℚ) ≤ r * (((endVal - start : Int) : ℚ) + 1) :=
      mul_nonneg h0 (le_of_lt hn)
    push_cast at hnn ⊢
    linarith
  · have hlt : ⌊r * (((endVal - start : Int) : ℚ) + 1) + ((start : Int) : ℚ)⌋ <
        endVal + 1 := by
      apply Int.floor_lt.mpr
      have hr : r * (((endVal - start : Int) : ℚ) + 1) <
          ((endVal - start : Int) : ℚ) + 1 := by
        nlinarith
      push_cast
      push_cast at hr
      linarith
    omega

/-- Unfolding `gemLoop` when the accumulator is not yet full and the draw
is a duplicate: the draw is discarded. -/
lemma gemLoop_cons_dup (acc : List Int) (d : Int) (ds : List Int)
    (h4 : acc.length < 4) (hd : d ∈ acc) :
    gemLoop acc (d :: ds) = gemLoop acc ds := by
  simp [gemLoop, h4, hd]

/-- Unfolding `gemLoop` when the accumulator is not yet full and the draw
is fresh: the draw is pushed. -/
lemma gemLoop_cons_fresh (acc : List Int) (d : Int) (ds : List Int)
    (h4 : acc.length < 4) (hd : d ∉ acc) :
    gemLoop acc (d :: ds) = gemLoop (acc ++ [d]) ds := by
  simp [gemLoop, h4, hd]

/-- Unfolding `gemLoop` when the accumulator is full: the loop stops. -/
lemma gemLoop_cons_full (acc : List Int) (d : Int) (ds : List Int)
    (h4 : ¬ acc.length < 4) :
    gemLoop acc (d :: ds) = acc := by
  simp [gemLoop, h4]

/-- The rejection-sampling loop keeps the accumulator duplicate-free. -/
lemma gemLoop_nodup (ds : List Int) :
    ∀ acc : List Int, acc.Nodup → (gemLoop acc ds).Nodup := by
  induction ds with
  | nil => intro acc h; simpa [gemLoop] using h
  | cons d ds ih =>
    intro acc h
    by_cases h4 : acc.length < 4
    · by_cases hd : d ∈ acc
      · rw [gemLoop_cons_dup acc d ds h4 hd]
        exact ih acc h
      · rw [gemLoop_cons_fresh acc d ds h4 hd]
        refine ih _ ?_
        simp [List.nodup_append, h, hd]
    · rw [gemLoop_cons_full acc d ds h4]
      exact h

/-- Every value the loop returns came from the accumulator or the draws. -/
lemma gemLoop_subset (ds : List Int) :
    ∀ acc x, x ∈ gemLoop acc ds → x ∈ acc ∨ x ∈ ds := by
  induction ds with
  | nil => intro acc x hx; simp [gemLoop] at hx; exact Or.inl hx
  | cons d ds ih =>
    intro acc x hx
    by_cases h4 : acc.length < 4
    · by_cases hd : d ∈ acc
      · rcases ih acc x (by rwa [gemLoop_cons_dup acc d ds h4 hd] at hx)
          with h | h
        · exact Or.inl h
        · exact Or.inr (List.mem_cons_of_mem d h)
      · rcases ih (acc ++ [d]) x
          (by rwa [gemLoop_cons_fresh acc d ds h4 hd] at hx) with h | h
        · rcases List.mem_append.mp h with h | h
          · exact Or.inl h
          · have hxd : x = d := by simpa using h
            exact Or.inr (hxd ▸ List.mem_cons_self _ _)
        · exact Or.inr (List.mem_cons_of_mem d h)
    · rw [gemLoop_cons_full acc d ds h4] at hx
      exact Or.inl hx

/-- The loop collects exactly 4 values as soon as the accumulator and the
draws contain at least 4 distinct values between them. -/
lemma gemLoop_length (ds : List Int) :
    ∀ acc : List Int, acc.length ≤ 4 → 4 ≤ (acc ++ ds).toFinset.card →
      (gemLoop acc ds).length = 4 := by
  induction ds with
  | nil =>
    intro acc hle hcard
    simp only [List.append_nil] at hcard
    have h := List.toFinset_card_le acc
    have hlen : acc.length = 4 := by omega
    simpa [gemLoop] using hlen
  | cons d ds ih =>
    intro acc hle hcard
    by_cases h4 : acc.length < 4
    · by_cases hd : d ∈ acc
      · have hmem : d ∈ acc.toFinset ∪ ds.toFinset :=
          Finset.mem_union_left _ (List.mem_toFinset.mpr hd)
        have hset : ((acc ++ d :: ds).toFinset : Finset Int) =
            (acc ++ ds).toFinset := by
          rw [List.toFinset_append, List.toFinset_cons, Finset.union_insert,
            Finset.insert_eq_self.mpr hmem, List.toFinset_append]
        rw [gemLoop_cons_dup acc d ds h4 hd]
        exact ih acc hle (by rw [← hset]; exact hcard)
      · have hset : (((acc ++ [d]) ++ ds).toFinset : Finset Int) =
            (acc ++ d :: ds).toFinset := by
          simp [List.toFinset_append, Finset.union_assoc]
        rw [gemLoop_cons_fresh acc d ds h4 hd]
        refine ih (acc ++ [d]) ?_ (by rw [hset]; exact hcard)
        simp only [List.length_append, List.length_singleton]
        omega
    · rw [gemLoop_cons_full acc d ds h4]
      omega

/-! ## Claim theorems -/

/-- Claim C9: for all integers `start ≤ end`, if the random source yields a
value in `[0, 1)` then `getRandomNumber(start, end)` returns an integer in
`[start, end]` inclusive. -/
theorem getRandomNumber_in_range (start endVal : Int) (r : ℚ)
    (hse : start ≤ endVal) (h0 : 0 ≤ r) (h1 : r < 1) :
    start ≤ getRandomNumber start endVal r ∧
      getRandomNumber start endVal r ≤ endVal :=
  getRandomNumber_range start endVal r hse h0 h1

theorem getRandomNumber_in_range_witness :
    1 ≤ getRandomNumber 1 12 (1 / 2) ∧ getRandomNumber 1 12 (1 / 2) ≤ 12 :=
  getRandomNumber_in_range 1 12 (1 / 2) (by norm_num) (by norm_num) (by norm_num)

/-- Claim C6: the target number generated for every round
(`generateTargetNumber`, i.e. `getRandomNumber(19, 120)`) is an integer in
`[19, 120]` inclusive, given a random source in `[0, 1)`. -/
theorem generateTargetNumber_in_range (r : ℚ) (h0 : 0 ≤ r) (h1 : r < 1) :
    19 ≤ generateTargetNumber r ∧ generateTargetNumber r ≤ 120 := by
  unfold generateTargetNumber
  exact getRandomNumber_range 19 120 r (by norm_num) h0 h1

theorem generateTargetNumber_in_range_witness :
    19 ≤ generateTargetNumber (1 / 2) ∧ generateTargetNumber (1 / 2) ≤ 120 :=
  generateTargetNumber_in_range (1 / 2) (by norm_num) (by norm_num)

/-- Claim C5: `generateGemNumbers` (rejection sampling over draws in
`[1, 12]`, starting from the empty `uniqueGemValues` it is always called
with) produces exactly 4 pairwise-distinct integers, each in `[1, 12]`,
provided the draw stream offers at least 4 distinct values (the loop keeps
drawing until 4 are collected). -/
theorem generateGemNumbers_four_unique (s : GameState) (draws : List Int)
    (hempty : s.uniqueGemValues = [])
    (hrange : ∀ d ∈ draws, 1 ≤ d ∧ d ≤ 12)
    (hterm : 4 ≤ draws.toFinset.card) :
    (generateGemNumbers s draws).uniqueGemValues.length = 4 ∧
    (generateGemNumbers s draws).uniqueGemValues.Nodup ∧
    ∀ v ∈ (generateGemNumbers s draws).uniqueGemValues, 1 ≤ v ∧ v ≤ 12 := by
  have hval : (generateGemNumbers s draws).uniqueGemValues =
      gemLoop [] draws := by
    simp [generateGemNumbers, hempty]
  rw [hval]
  refine ⟨?_, gemLoop_nodup draws [] (by simp), ?_⟩
  · exact gemLoop_length draws [] (by simp) (by simpa using hterm)
  · intro v hv
    rcases gemLoop_subset draws [] v hv with h | h
    · simp at h
    · exact hrange v h

theorem generateGemNumbers_four_unique_witness :
    (generateGemNumbers initState [3, 3, 5, 7, 9]).uniqueGemValues.length = 4 ∧
    (generateGemNumbers initState [3, 3, 5, 7, 9]).uniqueGemValues.Nodup ∧
    ∀ v ∈ (generateGemNumbers initState [3, 3, 5, 7, 9]).uniqueGemValues,
      1 ≤ v ∧ v ≤ 12 :=
  generateGemNumbers_four_unique initState [3, 3, 5, 7, 9] rfl (by decide)
    (by decide)

/-- Claim C2, counterexample: a `playerClick` whose target element carries
no `data-gem-value` (a gem id not of the active round) is NOT a full
no-op: `parseInt(undefined)` is `NaN` and `currentScore += NaN` replaces
the score 5 with `NaN`. -/
theorem stale_click_mutates_score :
    (playerClick cInProgressState none 0).currentScore ≠
      cInProgressState.currentScore := by decide

/-- Claim C2, amended: a `playerClick` with a gem id not of the active
round does not throw and leaves the outcome and the win/loss tally (and
every other field) unchanged, but it does mutate the score: the score
becomes `NaN`. -/
theorem playerClick_unknown_gem (s : GameState) (t : Int) :
    playerClick s none t = { s with currentScore := none } := by
  cases hsc : s.currentScore <;>
    simp [playerClick, jsAdd, jsEqInt, jsGtInt, hsc]

/-- Claim C1, counterexample: with the round already Lost (score 22 against
target 19, one loss tallied, countdown running), a further `playerClick`
on the still-displayed gem of value 12 pushes the score to 34 and tallies
a second loss: `playerClick` has no terminal-outcome guard. -/
theorem click_after_terminal_changes_state :
    outcomeOf cLostState = Outcome.lost ∧
    cLostState.numberOfLosses = 1 ∧
    (playerClick cLostState (some 12) 0).numberOfLosses = 2 ∧
    cLostState.currentScore = some 22 ∧
    (playerClick cLostState (some 12) 0).currentScore = some 34 := by decide

/-- Claim C1, amended: `playerClick` performs no terminal-outcome check,
so a click delivered after the outcome is terminal (score at or above the
target) is not a no-op: it still adds the gem value to the score and
tallies a further loss; score, outcome and tally stay unchanged only while
no click reaches `playerClick` (the overlay shown during the countdown is
what keeps clicks away in the browser). -/
theorem playerClick_after_terminal_not_noop (s : GameState) (n v t : Int)
    (hsc : s.currentScore = some n)
    (hterm : s.targetNumber ≤ n)
    (hv : 1 ≤ v) :
    (playerClick s (some v) t).currentScore = some (n + v) ∧
    (playerClick s (some v) t).numberOfLosses = s.numberOfLosses + 1 ∧
    (playerClick s (some v) t).numberOfWins = s.numberOfWins := by
  have h1 : jsEqInt (some (n + v)) s.targetNumber = false := by
    simp [jsEqInt]
    omega
  have h2 : jsGtInt (some (n + v)) s.targetNumber = true := by
    simp [jsGtInt]
    omega
  simp [playerClick, jsAdd, hsc, h1, h2]

theorem playerClick_after_terminal_not_noop_witness :
    (playerClick cLostState (some 12) 0).currentScore = some (22 + 12) ∧
    (playerClick cLostState (some 12) 0).numberOfLosses =
      cLostState.numberOfLosses + 1 ∧
    (playerClick cLostState (some 12) 0).numberOfWins =
      cLostState.numberOfWins :=
  playerClick_after_terminal_not_noop cLostState 22 12 0 rfl (by decide)
    (by decide)

/-- Claim C4: a `playerClick` on a gem of an in-progress round first adds
the gem value to the score, then evaluates, in order: score equal to the
target (Won, wins incremented, countdown scheduled), score above the
target (Lost, losses incremented, countdown scheduled), otherwise the
round continues untouched (identical state except the score), with no
countdown started. -/
theorem playerClick_transition (s : GameState) (n v t : Int)
    (hsc : s.currentScore = some n)
    (hgem : v ∈ s.gemButtons)
    (hprog : outcomeOf s = Outcome.inProgress) :
    (playerClick s (some v) t).currentScore = some (n + v) ∧
    (n + v = s.targetNumber →
      outcomeOf (playerClick s (some v) t) = Outcome.won ∧
      (playerClick s (some v) t).numberOfWins = s.numberOfWins + 1 ∧
      (playerClick s (some v) t).numberOfLosses = s.numberOfLosses ∧
      (playerClick s (some v) t).overlayVisible = true ∧
      (playerClick s (some v) t).timers =
        s.timers.filter (fun tm => tm.id ≠ s.restartID) ++
          [⟨s.nextID, t + restartSeconds * 1000, 1000⟩]) ∧
    (n + v ≠ s.targetNumber → s.targetNumber < n + v →
      outcomeOf (playerClick s (some v) t) = Outcome.lost ∧
      (playerClick s (some v) t).numberOfLosses = s.numberOfLosses + 1 ∧
      (playerClick s (some v) t).numberOfWins = s.numberOfWins ∧
      (playerClick s (some v) t).overlayVisible = true ∧
      (playerClick s (some v) t).timers =
        s.timers.filter (fun tm => tm.id ≠ s.restartID) ++
          [⟨s.nextID, t + restartSeconds * 1000, 1000⟩]) ∧
    (n + v < s.targetNumber →
      playerClick s (some v) t = { s with currentScore := some (n + v) }) := by
  cases hmw : s.msgWon with
  | true => simp [outcomeOf, hmw] at hprog
  | false =>
    cases hml : s.msgLost with
    | true => simp [outcomeOf, hmw, hml] at hprog
    | false =>
      refine ⟨?_, ?_, ?_, ?_⟩
      · by_cases h1 : n + v = s.targetNumber
        · have e1 : jsEqInt (some (n + v)) s.targetNumber = true := by
            simp [jsEqInt, h1]
          simp [playerClick, jsAdd, hsc, e1]
        · by_cases h2 : s.targetNumber < n + v
          · have e1 : jsEqInt (some (n + v)) s.targetNumber = false := by
              simp [jsEqInt, h1]
            have e2 : jsGtInt (some (n + v)) s.targetNumber = true := by
              simp [jsGtInt]
              omega
            simp [playerClick, jsAdd, hsc, e1, e2]
          · have e1 : jsEqInt (some (n + v)) s.targetNumber = false := by
              simp [jsEqInt, h1]
            have e2 : jsGtInt (some (n + v)) s.targetNumber = false := by
              simp [jsGtInt]
              omega
            simp [playerClick, jsAdd, hsc, e1, e2]
      · intro h1
        have e1 : jsEqInt (some (n + v)) s.targetNumber = true := by
          simp [jsEqInt, h1]
        simp [playerClick, jsAdd, hsc, e1, outcomeOf]
      · intro h1 h2
        have e1 : jsEqInt (some (n + v)) s.targetNumber = false := by
          simp [jsEqInt, h1]
        have e2 : jsGtInt (some (n + v)) s.targetNumber = true := by
          simp [jsGtInt]
          omega
        simp [playerClick, jsAdd, hsc, e1, e2, outcomeOf, hmw]
      · intro hlt
        have e1 : jsEqInt (some (n + v)) s.targetNumber = false := by
          simp [jsEqInt]
          omega
        have e2 : jsGtInt (some (n + v)) s.targetNumber = false := by
          simp [jsGtInt]
          omega
        simp [playerClick, jsAdd, hsc, e1, e2]
        exact ⟨hmw, hml⟩

theorem playerClick_transition_witness :
    (playerClick cInProgressState (some 12) 0).currentScore = some (5 + 12) ∧
    (5 + 12 < cInProgressState.targetNumber →
      playerClick cInProgressState (some 12) 0 =
        { cInProgressState with currentScore := some (5 + 12) }) :=
  ⟨(playerClick_transition cInProgressState 5 12 0 rfl (by decide) rfl).1,
   (playerClick_transition cInProgressState 5 12 0 rfl (by decide) rfl).2.2.2⟩

/-! ## Interval-callback unfolding lemmas -/

/-- `jsMod k 60` is `k` itself for the small negative values the expiring
tick produces. -/
lemma jsMod_small_neg (a : Int) (h1 : -60 < a) (h2 : a < 0) :
    jsMod a 60 = a := by
  have hneg : Int.tdiv (-a) 60 = 0 := Int.tdiv_eq_zero_of_lt (by omega) (by omega)
  have hd : Int.tdiv a 60 = 0 := by
    have := Int.neg_tdiv a 60
    omega
  unfold jsMod
  rw [Int.tmod_def, hd]
  ring

/-- Unfolding one interval firing once the fired timer is located. -/
lemma tickOnce_eq (s : GameState) (tmId : Nat) (t : Int) (draws : List Int)
    (r : ℚ) (tm : Timer)
    (hfind : s.timers.find? (fun x => x.id = tmId) = some tm) :
    tickOnce s tmId t draws r =
      if jsRoundDiv (tm.thenMs - t) 1000 < 0 then
        displayTimeLeft (resetGame (clearIntervalG s s.restartID) draws r)
          (jsRoundDiv (tm.thenMs - t) 1000)
      else displayTimeLeft s (jsRoundDiv (tm.thenMs - t) 1000) := by
  unfold tickOnce
  rw [hfind]

/-- A cleared interval never fires: without a matching live timer the tick
is a no-op. -/
lemma tickOnce_dead (s : GameState) (tmId : Nat) (t : Int) (draws : List Int)
    (r : ℚ) (hfind : s.timers.find? (fun x => x.id = tmId) = none) :
    tickOnce s tmId t draws r = s := by
  unfold tickOnce
  rw [hfind]

/-- Claim C10: on the tick whose computed `secondsLeft` is negative, the
callback clears the interval and starts the new round (`resetGame`) FIRST,
and still calls `displayTimeLeft` with the negative value afterwards, so
one tick carrying a negative number is displayed after the new round has
begun (the reset had emptied the display; the tick overwrites it). -/
theorem tick_expired_resets_then_displays (s : GameState) (tmId : Nat)
    (t : Int) (draws : List Int) (r : ℚ) (tm : Timer)
    (hfind : s.timers.find? (fun x => x.id = tmId) = some tm)
    (hneg : jsRoundDiv (tm.thenMs - t) 1000 < 0)
    (hlow : -60 < jsRoundDiv (tm.thenMs - t) 1000) :
    tickOnce s tmId t draws r =
      displayTimeLeft (resetGame (clearIntervalG s s.restartID) draws r)
        (jsRoundDiv (tm.thenMs - t) 1000) ∧
    (tickOnce s tmId t draws r).currentScore = some 0 ∧
    (tickOnce s tmId t draws r).timeLeftText =
      some (jsRoundDiv (tm.thenMs - t) 1000) := by
  have heq := tickOnce_eq s tmId t draws r tm hfind
  rw [if_pos hneg] at heq
  refine ⟨heq, ?_, ?_⟩
  · rw [heq]
    simp
  · rw [heq]
    simp [jsMod_small_neg _ hlow hneg]

theorem tick_expired_resets_then_displays_witness :
    tickOnce cLostState 1 6001 [2, 4, 6, 8] 0 =
      displayTimeLeft
        (resetGame (clearIntervalG cLostState cLostState.restartID) [2, 4, 6, 8] 0)
        (jsRoundDiv ((5000 : Int) - 6001) 1000) ∧
    (tickOnce cLostState 1 6001 [2, 4, 6, 8] 0).currentScore = some 0 ∧
    (tickOnce cLostState 1 6001 [2, 4, 6, 8] 0).timeLeftText =
      some (jsRoundDiv ((5000 : Int) - 6001) 1000) :=
  tick_expired_resets_then_displays cLostState 1 6001 [2, 4, 6, 8] 0
    ⟨1, 5000, 1000⟩ rfl (by decide) (by decide)

/-- Evaluating the manual `resetGame` on the lost state. -/
lemma resetGame_cLostState_eval :
    resetGame cLostState [2, 4, 6, 8] 0 = cSecondRoundState := by
  have htgt : generateTargetNumber 0 = 19 := by
    norm_num [generateTargetNumber, getRandomNumber]
  simp only [resetGame, start]
  rw [htgt]
  decide

/-- Claim C3, counterexample: `resetGame` (the manual `startRound`) does
NOT cancel a running countdown.  From the lost state with the live
interval (id 1), a manual `resetGame` leaves that interval live; the new
round proceeds (a click brings the score to 2, round in progress), and
when the stale timer expires its callback restarts the round a second
time, wiping the score back to 0 mid-round. -/
theorem manual_reset_does_not_cancel_timer :
    cLostState.timers = [⟨1, 5000, 1000⟩] ∧
    (resetGame cLostState [2, 4, 6, 8] 0).timers = [⟨1, 5000, 1000⟩] ∧
    (playerClick (resetGame cLostState [2, 4, 6, 8] 0) (some 2) 0).currentScore
      = some 2 ∧
    outcomeOf (playerClick (resetGame cLostState [2, 4, 6, 8] 0) (some 2) 0)
      = Outcome.inProgress ∧
    (tickOnce (playerClick (resetGame cLostState [2, 4, 6, 8] 0) (some 2) 0)
        1 6001 [1, 3, 5, 7] 0).currentScore = some 0 := by
  rw [resetGame_cLostState_eval]
  refine ⟨rfl, rfl, ?_⟩
  decide

/-- Claim C3, amended: only `restartGame` cancels the previously scheduled
timer before scheduling a new one (so the automatic restart path keeps a
single live countdown), but `startRound`/`resetGame` itself cancels
nothing: a manual round start mid-countdown leaves the old timer live,
and its later expiry triggers a second automatic restart. -/
theorem restartGame_cancels_resetGame_does_not (s : GameState)
    (secs t : Int) (draws : List Int) (r : ℚ)
    (hone : ∀ tm ∈ s.timers, tm.id = s.restartID) :
    (restartGame s secs t).timers = [⟨s.nextID, t + secs * 1000, 1000⟩] ∧
    (resetGame s draws r).timers = s.timers := by
  constructor
  · simp only [restartGame_timers]
    have hnil : s.timers.filter (fun tm => tm.id ≠ s.restartID) = [] :=
      List.filter_eq_nil_iff.mpr (fun tm h => by simp [hone tm h])
    rw [hnil]
    rfl
  · simp

theorem restartGame_cancels_resetGame_does_not_witness :
    (restartGame cLostState 5 0).timers =
      [⟨cLostState.nextID, 0 + 5 * 1000, 1000⟩] ∧
    (resetGame cLostState [2, 4, 6, 8] 0).timers = cLostState.timers :=
  restartGame_cancels_resetGame_does_not cLostState 5 0 [2, 4, 6, 8] 0
    (by decide)

/-! ## Tally accounting -/

/-- A single event changes the win tally exactly when it emits a Won
outcome, and then by exactly one. -/
lemma step_wins_count (s : GameState) (e : Ev) :
    (step s e).numberOfWins =
      s.numberOfWins + (if emitsWin s e then 1 else 0) := by
  cases e with
  | click attr t =>
    simp only [step, emitsWin]
    by_cases h1 : jsEqInt (jsAdd s.currentScore attr) s.targetNumber = true
    · simp [playerClick, h1]
    · rw [Bool.not_eq_true] at h1
      by_cases h2 : jsGtInt (jsAdd s.currentScore attr) s.targetNumber = true
      · simp [playerClick, h1, h2]
      · rw [Bool.not_eq_true] at h2
        simp [playerClick, h1, h2]
  | manualStart d r => simp [step, emitsWin]
  | tick i t d r =>
    simp only [step, emitsWin]
    cases hf : s.timers.find? (fun tm => tm.id = i) with
    | none => rw [tickOnce_dead s i t d r hf]; simp
    | some tm =>
      rw [tickOnce_eq s i t d r tm hf]
      by_cases hn : jsRoundDiv (tm.thenMs - t) 1000 < 0
      · rw [if_pos hn]; simp
      · rw [if_neg hn]; simp

/-- A single event changes the loss tally exactly when it emits a Lost
outcome, and then by exactly one. -/
lemma step_losses_count (s : GameState) (e : Ev) :
    (step s e).numberOfLosses =
      s.numberOfLosses + (if emitsLoss s e then 1 else 0) := by
  cases e with
  | click attr t =>
    simp only [step, emitsLoss]
    by_cases h1 : jsEqInt (jsAdd s.currentScore attr) s.targetNumber = true
    · simp [playerClick, h1]
    · rw [Bool.not_eq_true] at h1
      by_cases h2 : jsGtInt (jsAdd s.currentScore attr) s.targetNumber = true
      · simp [playerClick, h1, h2]
      · rw [Bool.not_eq_true] at h2
        simp [playerClick, h1, h2]
  | manualStart d r => simp [step, emitsLoss]
  | tick i t d r =>
    simp only [step, emitsLoss]
    cases hf : s.timers.find? (fun tm => tm.id = i) with
    | none => rw [tickOnce_dead s i t d r hf]; simp
    | some tm =>
      rw [tickOnce_eq s i t d r tm hf]
      by_cases hn : jsRoundDiv (tm.thenMs - t) 1000 < 0
      · rw [if_pos hn]; simp
      · rw [if_neg hn]; simp

/-- Along any run, the win tally grows by exactly the Won outcomes. -/
lemma run_wins_count (evs : List Ev) : ∀ s : GameState,
    (run s evs).numberOfWins = s.numberOfWins + winsEmitted s evs := by
  induction evs with
  | nil => intro s; simp [run, winsEmitted]
  | cons e es ih =>
    intro s
    show (run (step s e) es).numberOfWins = _
    rw [ih (step s e), step_wins_count]
    show _ = s.numberOfWins +
      ((if emitsWin s e then 1 else 0) + winsEmitted (step s e) es)
    omega

/-- Along any run, the loss tally grows by exactly the Lost outcomes. -/
lemma run_losses_count (evs : List Ev) : ∀ s : GameState,
    (run s evs).numberOfLosses = s.numberOfLosses + lossesEmitted s evs := by
  induction evs with
  | nil => intro s; simp [run, lossesEmitted]
  | cons e es ih =>
    intro s
    show (run (step s e) es).numberOfLosses = _
    rw [ih (step s e), step_losses_count]
    show _ = s.numberOfLosses +
      ((if emitsLoss s e then 1 else 0) + lossesEmitted (step s e) es)
    omega

/-- Claim C8: the tallies persist across rounds: `resetGame`/`start` never
touch them, and over any interleaving of events in a session the final
tallies equal the initial ones plus exactly the number of Won and Lost
outcomes emitted (so from a fresh session with N wins and M losses in any
order, wins = N and losses = M). -/
theorem tallies_persist (s : GameState) (evs : List Ev) :
    (run s evs).numberOfWins = s.numberOfWins + winsEmitted s evs ∧
    (run s evs).numberOfLosses = s.numberOfLosses + lossesEmitted s evs ∧
    ∀ draws r, (resetGame s draws r).numberOfWins = s.numberOfWins ∧
      (resetGame s draws r).numberOfLosses = s.numberOfLosses :=
  ⟨run_wins_count evs s, run_losses_count evs s, fun _ _ => ⟨rfl, rfl⟩⟩

/-! ## The countdown -/

lemma countdownStates_zero (s : GameState) (t0 : Int) (draws : List Int)
    (r : ℚ) : countdownStates s t0 draws r 0 = restartGame s restartSeconds t0
  := rfl

lemma countdownStates_succ (s : GameState) (t0 : Int) (draws : List Int)
    (r : ℚ) (k : Nat) :
    countdownStates s t0 draws r (k + 1) =
      tickOnce (countdownStates s t0 draws r k) s.nextID
        (t0 + 1000 * (k + 1)) draws r := rfl

/-- Claim C7: the countdown started by the terminal transition runs for
the fixed `restartSeconds = 5` seconds: 5 is displayed, then the interval
firing once per second displays 4, 3, 2, 1, 0 (each tick only updates the
display, decrementing it by one; in particular the round state is
untouched); on the next tick the computed remaining seconds is -1 (< 0),
the interval is cleared and `startRound` (`resetGame`) runs automatically
— and exactly once: afterwards no timer is live, so no further tick does
anything. -/
theorem countdown_five_seconds (s : GameState) (t0 : Int) (draws : List Int)
    (r : ℚ) (htimers : s.timers = []) :
    (countdownStates s t0 draws r 0).timeLeftText = some 5 ∧
    countdownStates s t0 draws r 1 =
      displayTimeLeft (countdownStates s t0 draws r 0) 4 ∧
    countdownStates s t0 draws r 2 =
      displayTimeLeft (countdownStates s t0 draws r 1) 3 ∧
    countdownStates s t0 draws r 3 =
      displayTimeLeft (countdownStates s t0 draws r 2) 2 ∧
    countdownStates s t0 draws r 4 =
      displayTimeLeft (countdownStates s t0 draws r 3) 1 ∧
    countdownStates s t0 draws r 5 =
      displayTimeLeft (countdownStates s t0 draws r 4) 0 ∧
    (countdownStates s t0 draws r 5).currentScore = s.currentScore ∧
    countdownStates s t0 draws r 6 =
      displayTimeLeft
        (resetGame (clearIntervalG (countdownStates s t0 draws r 5)
          (countdownStates s t0 draws r 5).restartID) draws r) (-1) ∧
    (countdownStates s t0 draws r 6).timers = [] ∧
    (countdownStates s t0 draws r 6).currentScore = some 0 ∧
    (countdownStates s t0 draws r 6).timeLeftText = some (-1) ∧
    ∀ (tmId : Nat) (tq : Int) (d2 : List Int) (r2 : ℚ),
      tickOnce (countdownStates s t0 draws r 6) tmId tq d2 r2 =
        countdownStates s t0 draws r 6 := by
  have h0t : (countdownStates s t0 draws r 0).timers =
      [⟨s.nextID, t0 + 5000, 1000⟩] := by
    rw [countdownStates_zero]
    simp [htimers, restartSeconds]
  have hstep : ∀ (u : GameState) (t1 v : Int),
      u.timers = [⟨s.nextID, t0 + 5000, 1000⟩] →
      jsRoundDiv ((t0 + 5000) - t1) 1000 = v →
      0 ≤ v →
      tickOnce u s.nextID t1 draws r = displayTimeLeft u v := by
    intro u t1 v hu hv hnn
    have hfind : u.timers.find? (fun x => x.id = s.nextID) =
        some ⟨s.nextID, t0 + 5000, 1000⟩ := by
      rw [hu]
      exact List.find?_cons_of_pos _ (by simp)
    rw [tickOnce_eq u s.nextID t1 draws r _ hfind]
    rw [show ((⟨s.nextID, t0 + 5000, 1000⟩ : Timer)).thenMs = t0 + 5000
      from rfl]
    rw [hv, if_neg (by omega)]
  have h1 : countdownStates s t0 draws r 1 =
      displayTimeLeft (countdownStates s t0 draws r 0) 4 := by
    rw [countdownStates_succ s t0 draws r 0]
    norm_num
    exact hstep _ (t0 + 1000) 4 h0t
      (by rw [show (t0 + 5000) - (t0 + 1000) = 4000 by ring]; decide)
      (by norm_num)
  have h1t : (countdownStates s t0 draws r 1).timers =
      [⟨s.nextID, t0 + 5000, 1000⟩] := by
    rw [h1, displayTimeLeft_timers, h0t]
  have h2 : countdownStates s t0 draws r 2 =
      displayTimeLeft (countdownStates s t0 draws r 1) 3 := by
    rw [countdownStates_succ s t0 draws r 1]
    norm_num
    exact hstep _ (t0 + 2000) 3 h1t
      (by rw [show (t0 + 5000) - (t0 + 2000) = 3000 by ring]; decide)
      (by norm_num)
  have h2t : (countdownStates s t0 draws r 2).timers =
      [⟨s.nextID, t0 + 5000, 1000⟩] := by
    rw [h2, displayTimeLeft_timers, h1t]
  have h3 : countdownStates s t0 draws r 3 =
      displayTimeLeft (countdownStates s t0 draws r 2) 2 := by
    rw [countdownStates_succ s t0 draws r 2]
    norm_num
    exact hstep _ (t0 + 3000) 2 h2t
      (by rw [show (t0 + 5000) - (t0 + 3000) = 2000 by ring]; decide)
      (by norm_num)
  have h3t : (countdownStates s t0 draws r 3).timers =
      [⟨s.nextID, t0 + 5000, 1000⟩] := by
    rw [h3, displayTimeLeft_timers, h2t]
  have h4 : countdownStates s t0 draws r 4 =
      displayTimeLeft (countdownStates s t0 draws r 3) 1 := by
    rw [countdownStates_succ s t0 draws r 3]
    norm_num
    exact hstep _ (t0 + 4000) 1 h3t
      (by rw [show (t0 + 5000) - (t0 + 4000) = 1000 by ring]; decide)
      (by norm_num)
  have h4t : (countdownStates s t0 draws r 4).timers =
      [⟨s.nextID, t0 + 5000, 1000⟩] := by
    rw [h4, displayTimeLeft_timers, h3t]
  have h5 : countdownStates s t0 draws r 5 =
      displayTimeLeft (countdownStates s t0 draws r 4) 0 := by
    rw [countdownStates_succ s t0 draws r 4]
    norm_num
    exact hstep _ (t0 + 5000) 0 h4t
      (by rw [show (t0 + 5000) - (t0 + 5000) = 0 by ring]; decide)
      (by norm_num)
  have h5t : (countdownStates s t0 draws r 5).timers =
      [⟨s.nextID, t0 + 5000, 1000⟩] := by
    rw [h5, displayTimeLeft_timers, h4t]
  have h5rid : (countdownStates s t0 draws r 5).restartID = s.nextID := by
    rw [h5, h4, h3, h2, h1, countdownStates_zero]
    simp
  have h5score : (countdownStates s t0 draws r 5).currentScore =
      s.currentScore := by
    rw [h5, h4, h3, h2, h1, countdownStates_zero]
    simp
  have h6 : countdownStates s t0 draws r 6 =
      displayTimeLeft
        (resetGame (clearIntervalG (countdownStates s t0 draws r 5)
          (countdownStates s t0 draws r 5).restartID) draws r) (-1) := by
    rw [countdownStates_succ s t0 draws r 5]
    norm_num
    have hfind : (countdownStates s t0 draws r 5).timers.find?
        (fun x => x.id = s.nextID) = some ⟨s.nextID, t0 + 5000, 1000⟩ := by
      rw [h5t]
      exact List.find?_cons_of_pos _ (by simp)
    rw [tickOnce_eq _ s.nextID _ draws r _ hfind]
    rw [show ((⟨s.nextID, t0 + 5000, 1000⟩ : Timer)).thenMs = t0 + 5000
      from rfl]
    rw [show (t0 + 5000) - (t0 + 6000) = -1000 by ring]
    rw [show jsRoundDiv (-1000) 1000 = -1 from by decide]
    rw [if_pos (by norm_num : (-1 : Int) < 0)]
  have h6t : (countdownStates s t0 draws r 6).timers = [] := by
    rw [h6, displayTimeLeft_timers, resetGame_timers, clearIntervalG_timers,
      h5t, h5rid]
    simp
  refine ⟨?_, h1, h2, h3, h4, h5, h5score, h6, h6t, ?_, ?_, ?_⟩
  · rw [countdownStates_zero, restartGame_timeLeftText]
    rw [show jsMod restartSeconds 60 = 5 from by decide]
  · rw [h6, displayTimeLeft_currentScore, resetGame_currentScore]
  · rw [h6, displayTimeLeft_timeLeftText,
      show jsMod (-1) 60 = -1 from by decide]
  · intro tmId tq d2 r2
    apply tickOnce_dead
    rw [h6t]
    rfl

theorem countdown_five_seconds_witness :
    (countdownStates initState 0 [1, 2, 3, 4] 0 6).timers = [] ∧
    (countdownStates initState 0 [1, 2, 3, 4] 0 6).currentScore = some 0 :=
  ⟨(countdown_five_seconds initState 0 [1, 2, 3, 4] 0 rfl).2.2.2.2.2.2.2.2.1,
   (countdown_five_seconds initState 0 [1, 2, 3, 4] 0
      rfl).2.2.2.2.2.2.2.2.2.1⟩

end CrystalCollector
